import Mathlib

/-!
# MMALCXX: ownership wrappers over the MMAL multimedia engine

A shallow embedding of `mmalcxx.hpp`.  The header is a thin C++ layer over the
native MMAL engine: `Base<T>` guards a raw pointer, `Port`, `Pool` and
`Connection` derive from it, and `Component` owns a native stage instance.

Conventions of the embedding:

* a raw pointer is an address (`Nat`), `0` being `nullptr`;
* a thrown `std::runtime_error` is the `error` case of `Except`;
* the engine is an external collaborator, so it is a parameter: a transition
  function answering every native call, over a state of its own and the native
  memory it shares with the wrappers;
* every native call a wrapper makes is appended to a log, so that "which calls
  were issued, with which arguments" is an observable of the model;
* a member function takes the object (`self`) and the world and returns its
  outcome, the object after the call, and the world after the call.
-/

namespace MMAL

/-! ## Native data -/

/-- A raw native pointer `T*`: an address, `0` standing for `nullptr`.  The
template parameter of `Base<T>` only types the pointer and is not kept. -/
abbrev RawPtr := Nat

/-- The null pointer. -/
def nullptr : RawPtr := 0

/-- The exception `std::runtime_error`, the only one the header throws; `what`
is its message. -/
structure runtime_error where
  what : String
deriving DecidableEq, Repr

/-- Modelled from the spec: the status enumeration `MMAL_STATUS_T` is declared
in the engine headers, which are not part of the repository.  The wrappers only
compare a status with `MMAL_SUCCESS`, so a status is kept as its numeric code. -/
abbrev MMAL_STATUS_T := Nat

/-- Modelled from the spec: the success code of `MMAL_STATUS_T`, declared in the
engine headers; every other code reports a failure. -/
def MMAL_SUCCESS : MMAL_STATUS_T := 0

/-- Modelled from the spec: connection flag declared in the engine header
`mmal_connection.h` (request tunnelling), a small bit mask. -/
def MMAL_CONNECTION_FLAG_TUNNELLING : Nat := 0x1

/-- Modelled from the spec: connection flag declared in the engine header
`mmal_connection.h` (buffers allocated on the input side), a small bit mask. -/
def MMAL_CONNECTION_FLAG_ALLOCATION_ON_INPUT : Nat := 0x2

/-- Width in bits of the engine's `uint32_t`. -/
def UINT32_BITS : Nat := 32

/-- Conversion of an unsigned value to `uint32_t`: reduction modulo `2^32`.  It
applies wherever a wider value (a `size_t`, a template argument) is assigned to
a 32-bit field or passed for a 32-bit parameter of a native function. -/
def to_uint32 (n : Nat) : Nat := n % 2 ^ UINT32_BITS

/-- Modelled from the spec: the native port record `MMAL_PORT_T` is declared in
the engine headers, which are not part of the repository.  Only the fields the
wrappers touch are kept; `buffer_num` and `buffer_size` are 32-bit unsigned
fields, `format` points to the elementary-stream format descriptor. -/
structure MMAL_PORT_T where
  buffer_num : Nat
  buffer_size : Nat
  format : RawPtr

/-- Modelled from the spec: the native component record `MMAL_COMPONENT_T` is
declared in the engine headers, which are not part of the repository.  Only the
fields the wrappers touch are kept: the port counts, the two arrays of port
pointers (indexed as in C) and the control port. -/
structure MMAL_COMPONENT_T where
  input_num : Nat
  input : Nat → RawPtr
  output_num : Nat
  output : Nat → RawPtr
  control : RawPtr

/-- Modelled from the spec: header of a structured parameter record
(`MMAL_PARAMETER_HEADER_T` of the engine headers). -/
structure MMAL_PARAMETER_HEADER_T where
  id : Nat
  size : Nat
deriving DecidableEq, Repr

/-- A structured parameter record: any type `T` with a member `hdr`, as the
first `SetParameter` template requires. -/
structure ParameterRecord where
  hdr : MMAL_PARAMETER_HEADER_T
  payload : List Nat
deriving DecidableEq, Repr

/-- Native memory: what the wrappers dereference. -/
structure Memory where
  port : RawPtr → MMAL_PORT_T
  component : RawPtr → MMAL_COMPONENT_T

/-! ## Wrapper objects -/

/-- The class `Base<T>`: one protected data member, `T* Ptr`. -/
structure Base where
  Ptr : RawPtr
deriving DecidableEq, Repr

/-- The class `Port : public Base<MMAL_PORT_T>`; no data member of its own. -/
structure Port extends Base
deriving DecidableEq, Repr

/-- A `Port*`: null (`none`) or the address of a `Port` object.  Port objects
never change after construction, so the pointee is given by its value. -/
abbrev PortRef := Option Port

/-- The class `Pool : public Base<MMAL_POOL_T>` with its member `Port* Owner`. -/
structure Pool extends Base where
  Owner : PortRef
deriving DecidableEq, Repr

/-- The class `Connection : public Base<MMAL_CONNECTION_T>`. -/
structure Connection extends Base
deriving DecidableEq, Repr

/-- The class `Component` (not derived from `Base`): one member,
`MMAL_COMPONENT_T* Ptr`. -/
structure Component where
  Ptr : RawPtr
deriving DecidableEq, Repr

/-! ## The engine -/

/-- A native call as the engine receives it, with its arguments.  Modelled from
the spec: the prototypes are declared in the engine headers, which are not part
of the repository; there `flags` of `mmal_connection_create`, `headers` and
`payload_size` of `mmal_port_pool_create`, and `id` and `value` of
`mmal_port_parameter_set_uint32` and `id` of `mmal_port_parameter_set_boolean`
are 32-bit unsigned parameters, so the wrappers' wider arguments are converted
with `to_uint32` at the call. -/
inductive EngineCall where
  | mmal_format_copy (dst src : RawPtr)
  | mmal_port_format_commit (port : RawPtr)
  | mmal_port_parameter_set (port : RawPtr) (param : ParameterRecord)
  | mmal_port_parameter_set_uint32 (port : RawPtr) (id value : Nat)
  | mmal_port_parameter_set_boolean (port : RawPtr) (id value : Nat)
  | mmal_port_enable (port : RawPtr) (callback : RawPtr)
  | mmal_port_disable (port : RawPtr)
  | mmal_port_pool_create (port : RawPtr) (headers payload_size : Nat)
  | mmal_port_pool_destroy (owner : PortRef) (pool : RawPtr)
  | mmal_connection_create (out inp : RawPtr) (flags : Nat)
  | mmal_connection_destroy (connection : RawPtr)
  | mmal_connection_enable (connection : RawPtr)
  | mmal_connection_disable (connection : RawPtr)
  | mmal_component_create (name : String)
  | mmal_component_destroy (component : RawPtr)
  | mmal_component_enable (component : RawPtr)
  | mmal_component_disable (component : RawPtr)
deriving DecidableEq, Repr

/-- What the engine hands back from a native call: the returned status (for the
functions returning `MMAL_STATUS_T`), the returned pointer (for
`mmal_port_pool_create`), and the pointer stored through the out-parameter (for
`mmal_connection_create` and `mmal_component_create`; `none` when the engine
leaves the caller's variable untouched). -/
structure Response where
  status : MMAL_STATUS_T
  ptr : RawPtr
  out : Option RawPtr
deriving DecidableEq, Repr

/-- The engine: an arbitrary deterministic machine over a state `σ` of its own,
answering each call and free to rewrite native memory. -/
structure Engine (σ : Type) where
  step : EngineCall → Memory → σ → Response × Memory × σ

/-- The world a wrapper runs in: native memory, the engine's state, and the log
of the native calls issued so far (oldest first). -/
structure World (σ : Type) where
  mem : Memory
  engine : σ
  log : List EngineCall

/-- Issue one native call: the engine answers, and the call is logged. -/
def invoke {σ : Type} (E : Engine σ) (c : EngineCall) (w : World σ) : Response × World σ :=
  let r := E.step c w.mem w.engine
  (r.1, { mem := r.2.1, engine := r.2.2, log := w.log ++ [c] })

/-- Outcome of a member function: the returned value or the exception thrown,
the object after the call, the world after the call. -/
structure Result (Self α σ : Type) where
  ret : Except runtime_error α
  self : Self
  world : World σ

/-- Outcome of a constructor or static function that talks to the engine. -/
structure Outcome (α σ : Type) where
  ret : Except runtime_error α
  world : World σ

/-! ## `Base<T>` -/

/-- The constructor `Base(T* raw)`: stores `raw`, then throws when it is null. -/
def Base.new (raw : RawPtr) : Except runtime_error Base :=
  let self : Base := { Ptr := raw }
  if self.Ptr = nullptr then .error { what := "Pointer is null" } else .ok self

/-- The destructor `~Base() {}`: empty body. -/
def Base.destructor {σ : Type} (_self : Base) (w : World σ) : World σ := w

/-- `T* GetRawPtr() const { return Ptr; }`. -/
def Base.GetRawPtr {σ : Type} (self : Base) (w : World σ) : Result Base RawPtr σ :=
  { ret := .ok self.Ptr, self := self, world := w }

/-! ## `Port` -/

/-- The constructor `Port` inherits from `Base` (`using Base::Base`). -/
def Port.new (raw : RawPtr) : Except runtime_error Port :=
  match Base.new raw with
  | .error e => .error e
  | .ok b => .ok { toBase := b }

/-- The implicit destructor of `Port`: only `~Base()` runs, which is empty. -/
def Port.destructor {σ : Type} (self : Port) (w : World σ) : World σ :=
  self.toBase.destructor w

/-- Store a port record at an address of native memory. -/
def Memory.storePort (m : Memory) (p : RawPtr) (v : MMAL_PORT_T) : Memory :=
  { m with port := Function.update m.port p v }

/-- `size_t GetBufferCount() const { return Ptr->buffer_num; }`. -/
def Port.GetBufferCount {σ : Type} (self : Port) (w : World σ) : Result Port Nat σ :=
  { ret := .ok (w.mem.port self.Ptr).buffer_num, self := self, world := w }

/-- `void SetBufferCount(size_t count) { Ptr->buffer_num = count; }`: the
assignment converts `count` to the 32-bit field. -/
def Port.SetBufferCount {σ : Type} (self : Port) (count : Nat) (w : World σ) :
    Result Port Unit σ :=
  let target : MMAL_PORT_T := { w.mem.port self.Ptr with buffer_num := to_uint32 count }
  { ret := .ok (), self := self, world := { w with mem := w.mem.storePort self.Ptr target } }

/-- `size_t GetBufferSize() const { return Ptr->buffer_size; }`. -/
def Port.GetBufferSize {σ : Type} (self : Port) (w : World σ) : Result Port Nat σ :=
  { ret := .ok (w.mem.port self.Ptr).buffer_size, self := self, world := w }

/-- `void SetBufferSize(size_t size) { Ptr->buffer_size = size; }`: the
assignment converts `size` to the 32-bit field. -/
def Port.SetBufferSize {σ : Type} (self : Port) (size : Nat) (w : World σ) :
    Result Port Unit σ :=
  let target : MMAL_PORT_T := { w.mem.port self.Ptr with buffer_size := to_uint32 size }
  { ret := .ok (), self := self, world := { w with mem := w.mem.storePort self.Ptr target } }

/-- `MMAL_ES_FORMAT_T& Format() { return *Ptr->format; }`: the reference is
given by the address of the descriptor. -/
def Port.Format {σ : Type} (self : Port) (w : World σ) : Result Port RawPtr σ :=
  { ret := .ok (w.mem.port self.Ptr).format, self := self, world := w }

/-- `void CopyFormat(MMAL_ES_FORMAT_T& src) { mmal_format_copy(Ptr->format, &src); }`. -/
def Port.CopyFormat {σ : Type} (E : Engine σ) (self : Port) (src : RawPtr) (w : World σ) :
    Result Port Unit σ :=
  let r := invoke E (.mmal_format_copy (w.mem.port self.Ptr).format src) w
  { ret := .ok (), self := self, world := r.2 }

/-- `bool CommitFormatChanges() { return mmal_port_format_commit(Ptr) == MMAL_SUCCESS; }`. -/
def Port.CommitFormatChanges {σ : Type} (E : Engine σ) (self : Port) (w : World σ) :
    Result Port Bool σ :=
  let r := invoke E (.mmal_port_format_commit self.Ptr) w
  { ret := .ok (decide (r.1.status = MMAL_SUCCESS)), self := self, world := r.2 }

/-- `bool SetParameter(const T& p)`:
`return mmal_port_parameter_set(Ptr, &p.hdr) == MMAL_SUCCESS;`.  The pointer to
the header is the pointer to the record it heads. -/
def Port.SetParameter {σ : Type} (E : Engine σ) (self : Port) (p : ParameterRecord)
    (w : World σ) : Result Port Bool σ :=
  let r := invoke E (.mmal_port_parameter_set self.Ptr p) w
  { ret := .ok (decide (r.1.status = MMAL_SUCCESS)), self := self, world := r.2 }

/-- `bool SetParameter(T id, uint32_t value)`:
`return mmal_port_parameter_set_uint32(Ptr, id, value) == MMAL_SUCCESS;`.  The
template argument `id` is converted to the 32-bit `id` parameter of the native
function, and `value` is a `uint32_t`. -/
def Port.SetParameter_uint32 {σ : Type} (E : Engine σ) (self : Port) (id value : Nat)
    (w : World σ) : Result Port Bool σ :=
  let r := invoke E (.mmal_port_parameter_set_uint32 self.Ptr (to_uint32 id) (to_uint32 value)) w
  { ret := .ok (decide (r.1.status = MMAL_SUCCESS)), self := self, world := r.2 }

/-- `bool SetParameter(T id, bool value)`:
`return mmal_port_parameter_set_boolean(Ptr, id, value ? 1 : 0) == MMAL_SUCCESS;`.
The template argument `id` is converted to the 32-bit `id` parameter of the
native function. -/
def Port.SetParameter_bool {σ : Type} (E : Engine σ) (self : Port) (id : Nat) (value : Bool)
    (w : World σ) : Result Port Bool σ :=
  let r := invoke E
    (.mmal_port_parameter_set_boolean self.Ptr (to_uint32 id) (if value then 1 else 0)) w
  { ret := .ok (decide (r.1.status = MMAL_SUCCESS)), self := self, world := r.2 }

/-- `bool Enable(MMAL_PORT_BH_CB_T callback)`:
`return mmal_port_enable(Ptr, callback) == MMAL_SUCCESS;`. -/
def Port.Enable {σ : Type} (E : Engine σ) (self : Port) (callback : RawPtr) (w : World σ) :
    Result Port Bool σ :=
  let r := invoke E (.mmal_port_enable self.Ptr callback) w
  { ret := .ok (decide (r.1.status = MMAL_SUCCESS)), self := self, world := r.2 }

/-- `bool Disable() { return mmal_port_disable(Ptr) == MMAL_SUCCESS; }`. -/
def Port.Disable {σ : Type} (E : Engine σ) (self : Port) (w : World σ) : Result Port Bool σ :=
  let r := invoke E (.mmal_port_disable self.Ptr) w
  { ret := .ok (decide (r.1.status = MMAL_SUCCESS)), self := self, world := r.2 }

/-! ## `Pool` -/

/-- The constructor `Pool(raw, Port* owner) : Base(raw), Owner(owner) {}`. -/
def Pool.new (raw : RawPtr) (owner : PortRef) : Except runtime_error Pool :=
  match Base.new raw with
  | .error e => .error e
  | .ok b => .ok { toBase := b, Owner := owner }

/-- The destructor `~Pool() { mmal_port_pool_destroy(Owner, Ptr); }`, followed by
the empty `~Base()`. -/
def Pool.destructor {σ : Type} (E : Engine σ) (self : Pool) (w : World σ) : World σ :=
  let r := invoke E (.mmal_port_pool_destroy self.Owner self.Ptr) w
  self.toBase.destructor r.2

/-- `std::shared_ptr<Pool> CreatePool(size_t buffer_count, size_t buffer_size)`:
`return std::make_shared<Pool>(mmal_port_pool_create(Ptr, buffer_count, buffer_size), );`.
The second operand of the `Pool` constructor is left blank in the source, so it
is the argument `owner` here: every statement about `CreatePool` is made for
whatever stands in that place.  The two `size_t` arguments are converted to the
32-bit parameters `headers` and `payload_size` of the native function.  A
`shared_ptr` is an `Option`, and `make_shared` never yields the empty one. -/
def Port.CreatePool {σ : Type} (E : Engine σ) (self : Port) (buffer_count buffer_size : Nat)
    (owner : PortRef) (w : World σ) : Result Port (Option Pool) σ :=
  let r := invoke E
    (.mmal_port_pool_create self.Ptr (to_uint32 buffer_count) (to_uint32 buffer_size)) w
  { ret := (Pool.new r.1.ptr owner).map some, self := self, world := r.2 }

/-- `std::shared_ptr<Pool> CreatePool()`:
`return CreatePool(Ptr->buffer_num, Ptr->buffer_size);` (`owner` as in the
two-argument overload it calls). -/
def Port.CreatePool_default {σ : Type} (E : Engine σ) (self : Port) (owner : PortRef)
    (w : World σ) : Result Port (Option Pool) σ :=
  self.CreatePool E (w.mem.port self.Ptr).buffer_num (w.mem.port self.Ptr).buffer_size owner w

/-! ## `Connection` -/

/-- The constructor `Connection` inherits from `Base` (`using Base::Base`). -/
def Connection.new (raw : RawPtr) : Except runtime_error Connection :=
  match Base.new raw with
  | .error e => .error e
  | .ok b => .ok { toBase := b }

/-- The destructor `~Connection() { if (Ptr) { mmal_connection_destroy(Ptr); } }`,
followed by the empty `~Base()`. -/
def Connection.destructor {σ : Type} (E : Engine σ) (self : Connection) (w : World σ) :
    World σ :=
  let w1 := if self.Ptr ≠ nullptr then (invoke E (.mmal_connection_destroy self.Ptr) w).2 else w
  self.toBase.destructor w1

/-- The static factory `Connect(p1, p2, flags)`: a local `connection = nullptr`,
the call `mmal_connection_create(&connection, p1->GetRawPtr(), p2->GetRawPtr(), flags)`
whose status is dropped, then `return std::make_unique<Connection>(connection);`.
The `size_t flags` is converted to the 32-bit `flags` parameter of the native
function.  A `unique_ptr` is an `Option`, and `make_unique` never yields the
empty one. -/
def Connection.Connect {σ : Type} (E : Engine σ) (p1 p2 : Port) (flags : Nat) (w : World σ) :
    Outcome (Option Connection) σ :=
  let connection : RawPtr := nullptr
  let a1 := p1.toBase.GetRawPtr w
  let a2 := p2.toBase.GetRawPtr a1.world
  match a1.ret, a2.ret with
  | .ok raw1, .ok raw2 =>
    let r := invoke E (.mmal_connection_create raw1 raw2 (to_uint32 flags)) a2.world
    let connection := r.1.out.getD connection
    { ret := (Connection.new connection).map some, world := r.2 }
  | .error e, _ => { ret := .error e, world := a2.world }
  | .ok _, .error e => { ret := .error e, world := a2.world }

/-- `Connect(p1, p2)` with the default argument
`flags = MMAL_CONNECTION_FLAG_TUNNELLING | MMAL_CONNECTION_FLAG_ALLOCATION_ON_INPUT`. -/
def Connection.Connect_default {σ : Type} (E : Engine σ) (p1 p2 : Port) (w : World σ) :
    Outcome (Option Connection) σ :=
  Connection.Connect E p1 p2
    (MMAL_CONNECTION_FLAG_TUNNELLING ||| MMAL_CONNECTION_FLAG_ALLOCATION_ON_INPUT) w

/-- `bool Enable() { return mmal_connection_enable(Ptr) == MMAL_SUCCESS; }`. -/
def Connection.Enable {σ : Type} (E : Engine σ) (self : Connection) (w : World σ) :
    Result Connection Bool σ :=
  let r := invoke E (.mmal_connection_enable self.Ptr) w
  { ret := .ok (decide (r.1.status = MMAL_SUCCESS)), self := self, world := r.2 }

/-- `bool Disable() { return mmal_connection_disable(Ptr) == MMAL_SUCCESS; }`. -/
def Connection.Disable {σ : Type} (E : Engine σ) (self : Connection) (w : World σ) :
    Result Connection Bool σ :=
  let r := invoke E (.mmal_connection_disable self.Ptr) w
  { ret := .ok (decide (r.1.status = MMAL_SUCCESS)), self := self, world := r.2 }

/-! ## `Component` -/

/-- The constructor `Component(const char* name)`: `Ptr` starts as `nullptr`,
`mmal_component_create(name, &Ptr)` may store into it, and a status other than
`MMAL_SUCCESS` throws. -/
def Component.new {σ : Type} (E : Engine σ) (name : String) (w : World σ) :
    Outcome Component σ :=
  let self : Component := { Ptr := nullptr }
  let r := invoke E (.mmal_component_create name) w
  let self : Component := { Ptr := r.1.out.getD self.Ptr }
  if r.1.status ≠ MMAL_SUCCESS then
    { ret := .error { what := "Failed to create component" }, world := r.2 }
  else
    { ret := .ok self, world := r.2 }

/-- The destructor `~Component() { if (Ptr) { mmal_component_destroy(Ptr); } }`. -/
def Component.destructor {σ : Type} (E : Engine σ) (self : Component) (w : World σ) :
    World σ :=
  if self.Ptr ≠ nullptr then (invoke E (.mmal_component_destroy self.Ptr) w).2 else w

/-- `std::shared_ptr<Port> GetInputPort(size_t port) const`:
`if (port < Ptr->input_num) return std::make_shared<Port>(Ptr->input[port]);`
`return nullptr;`. -/
def Component.GetInputPort {σ : Type} (self : Component) (port : Nat) (w : World σ) :
    Result Component (Option Port) σ :=
  if port < (w.mem.component self.Ptr).input_num then
    { ret := (Port.new ((w.mem.component self.Ptr).input port)).map some,
      self := self, world := w }
  else
    { ret := .ok none, self := self, world := w }

/-- `std::shared_ptr<Port> GetOutputPort(size_t port) const`:
`if (port < Ptr->output_num) return std::make_shared<Port>(Ptr->output[port]);`
`return nullptr;`. -/
def Component.GetOutputPort {σ : Type} (self : Component) (port : Nat) (w : World σ) :
    Result Component (Option Port) σ :=
  if port < (w.mem.component self.Ptr).output_num then
    { ret := (Port.new ((w.mem.component self.Ptr).output port)).map some,
      self := self, world := w }
  else
    { ret := .ok none, self := self, world := w }

/-- `std::shared_ptr<Port> GetControlPort() const`:
`return std::make_shared<Port>(Ptr->control);`. -/
def Component.GetControlPort {σ : Type} (self : Component) (w : World σ) :
    Result Component (Option Port) σ :=
  { ret := (Port.new (w.mem.component self.Ptr).control).map some, self := self, world := w }

/-- `bool Enable() { return mmal_component_enable(Ptr) == MMAL_SUCCESS; }`. -/
def Component.Enable {σ : Type} (E : Engine σ) (self : Component) (w : World σ) :
    Result Component Bool σ :=
  let r := invoke E (.mmal_component_enable self.Ptr) w
  { ret := .ok (decide (r.1.status = MMAL_SUCCESS)), self := self, world := r.2 }

/-- `bool Disable() { return mmal_component_disable(Ptr) == MMAL_SUCCESS; }`. -/
def Component.Disable {σ : Type} (E : Engine σ) (self : Component) (w : World σ) :
    Result Component Bool σ :=
  let r := invoke E (.mmal_component_disable self.Ptr) w
  { ret := .ok (decide (r.1.status = MMAL_SUCCESS)), self := self, world := r.2 }

/-! ## Concrete engines and worlds, for evaluating the model -/

/-- Native memory holding nothing of interest: every field zero. -/
def blankMemory : Memory :=
  { port := fun _ => { buffer_num := 0, buffer_size := 0, format := 0 },
    component := fun _ =>
      { input_num := 0, input := fun _ => 0, output_num := 0, output := fun _ => 0,
        control := 0 } }

/-- A world over `blankMemory` with an empty log. -/
def blankWorld : World Unit := { mem := blankMemory, engine := (), log := [] }

/-- An engine that refuses every request: a failure status, a null returned
pointer, nothing stored through an out-parameter, memory untouched. -/
def refusingEngine : Engine Unit :=
  { step := fun _ m s => ({ status := 1, ptr := nullptr, out := none }, m, s) }

/-- An engine that grants every request: success, and the pointer `9` both
returned and stored through the out-parameter; memory untouched. -/
def grantingEngine : Engine Unit :=
  { step := fun _ m s => ({ status := MMAL_SUCCESS, ptr := 9, out := some 9 }, m, s) }

/-- A world whose every component record is a source-only stage: no input
port, two output ports at the addresses 20 and 21, a control port at 30. -/
def sourceStageWorld : World Unit :=
  { mem := { port := blankMemory.port,
             component := fun _ =>
               { input_num := 0, input := fun _ => nullptr, output_num := 2,
                 output := fun i => 20 + i, control := 30 } },
    engine := (), log := [] }

/-- A world whose every component record announces one input and one output
port but holds null pointers in both arrays. -/
def nullEndpointWorld : World Unit :=
  { mem := { port := blankMemory.port,
             component := fun _ =>
               { input_num := 1, input := fun _ => nullptr, output_num := 1,
                 output := fun _ => nullptr, control := 0 } },
    engine := (), log := [] }

/-- The outcome `r` of a boolean-returning operation on `self` in world `w` is
that of forwarding the single native call `c`: the log grows by exactly `c`, the
world is the one the engine leaves after `c`, the operation returns normally,
with `true` exactly when the engine reports `MMAL_SUCCESS`, and the object is
unchanged. -/
def ForwardsOnce {σ Self : Type} (E : Engine σ) (c : EngineCall) (self : Self) (w : World σ)
    (r : Result Self Bool σ) : Prop :=
  r.world.log = w.log ++ [c] ∧
  r.world = (invoke E c w).2 ∧
  (∃ b, r.ret = .ok b ∧ (b = true ↔ (invoke E c w).1.status = MMAL_SUCCESS)) ∧
  r.self = self

/-- One step of a caller toggling a port: `Enable(callback)` or `Disable()`. -/
inductive Toggle where
  | Enable (callback : RawPtr)
  | Disable
deriving DecidableEq, Repr

/-- The native call a toggle forwards for the port at `port`. -/
def Toggle.call (port : RawPtr) : Toggle → EngineCall
  | .Enable callback => .mmal_port_enable port callback
  | .Disable => .mmal_port_disable port

/-- A caller performing one toggle on a port. -/
def Port.toggle {σ : Type} (E : Engine σ) (self : Port) (t : Toggle) (w : World σ) :
    Result Port Bool σ :=
  match t with
  | .Enable callback => self.Enable E callback w
  | .Disable => self.Disable E w

/-- A caller performing a sequence of toggles on a port, each on the object and
in the world the previous one left; the results are discarded. -/
def Port.toggles {σ : Type} (E : Engine σ) (self : Port) : List Toggle → World σ → Port × World σ
  | [], w => (self, w)
  | t :: ts, w => Port.toggles E (self.toggle E t w).self ts (self.toggle E t w).world

/-! ## Theorems -/

/-- C1: constructing a handle wrapper fails with the invalid-handle error
("Pointer is null") if and only if the raw pointer is null, for `Base` and for
`Port`, `Pool` and `Connection`, whose constructors run it; for every non-null
pointer construction succeeds and the wrapper holds that pointer. -/
theorem C1_construction_fails_iff_null (raw : RawPtr) (owner : PortRef) :
    ((Base.new raw = .error { what := "Pointer is null" } ↔ raw = nullptr) ∧
      (raw ≠ nullptr ↔ Base.new raw = .ok { Ptr := raw })) ∧
    ((Port.new raw = .error { what := "Pointer is null" } ↔ raw = nullptr) ∧
      (raw ≠ nullptr ↔ Port.new raw = .ok { Ptr := raw })) ∧
    ((Pool.new raw owner = .error { what := "Pointer is null" } ↔ raw = nullptr) ∧
      (raw ≠ nullptr ↔ Pool.new raw owner = .ok { Ptr := raw, Owner := owner })) ∧
    ((Connection.new raw = .error { what := "Pointer is null" } ↔ raw = nullptr) ∧
      (raw ≠ nullptr ↔ Connection.new raw = .ok { Ptr := raw })) := by
  by_cases h : raw = nullptr <;>
    simp [Base.new, Port.new, Pool.new, Connection.new, h]

/-- C2: for a non-null raw pointer, wrapping it succeeds and `GetRawPtr()` on
the wrapper returns exactly that pointer; the call changes neither the wrapper
nor the world (no native call, no memory write), and calling it again returns the
same value.  `Port`, `Pool` and `Connection` inherit the accessor from `Base`. -/
theorem C2_GetRawPtr_returns_wrapped_pointer {σ : Type} (raw : RawPtr) (h : raw ≠ nullptr)
    (owner : PortRef) (w : World σ) :
    ∃ b : Base, Base.new raw = .ok b ∧
      (b.GetRawPtr w).ret = .ok raw ∧
      (b.GetRawPtr w).self = b ∧
      (b.GetRawPtr w).world = w ∧
      ((b.GetRawPtr w).self.GetRawPtr (b.GetRawPtr w).world).ret = .ok raw ∧
      Port.new raw = .ok { toBase := b } ∧
      Pool.new raw owner = .ok { toBase := b, Owner := owner } ∧
      Connection.new raw = .ok { toBase := b } := by
  refine ⟨{ Ptr := raw }, ?_⟩
  simp [Base.new, Port.new, Pool.new, Connection.new, Base.GetRawPtr, h]

/-- Witness of C2 at the pointer `5` in the blank world. -/
theorem C2_GetRawPtr_returns_wrapped_pointer_witness :
    (5 : RawPtr) ≠ nullptr ∧
    ∃ b : Base, Base.new 5 = .ok b ∧
      (b.GetRawPtr blankWorld).ret = .ok 5 ∧
      (b.GetRawPtr blankWorld).self = b ∧
      (b.GetRawPtr blankWorld).world = blankWorld ∧
      ((b.GetRawPtr blankWorld).self.GetRawPtr (b.GetRawPtr blankWorld).world).ret = .ok 5 ∧
      Port.new 5 = .ok { toBase := b } ∧
      Pool.new 5 none = .ok { toBase := b, Owner := none } ∧
      Connection.new 5 = .ok { toBase := b } :=
  ⟨by decide, C2_GetRawPtr_returns_wrapped_pointer 5 (by decide) none blankWorld⟩

/-- C3, as stated, fails: on a component record with one announced input (and
output) port whose array entry is null, `GetInputPort(0)` and `GetOutputPort(0)`
are in range and throw "Pointer is null" from the `Port` constructor. -/
theorem C3_null_endpoint_raises :
    0 < (nullEndpointWorld.mem.component 1).input_num ∧
    (Component.GetInputPort { Ptr := 1 } 0 nullEndpointWorld).ret
      = .error { what := "Pointer is null" } ∧
    (¬ ∃ v, (Component.GetInputPort { Ptr := 1 } 0 nullEndpointWorld).ret = .ok v) ∧
    0 < (nullEndpointWorld.mem.component 1).output_num ∧
    (Component.GetOutputPort { Ptr := 1 } 0 nullEndpointWorld).ret
      = .error { what := "Pointer is null" } ∧
    (¬ ∃ v, (Component.GetOutputPort { Ptr := 1 } 0 nullEndpointWorld).ret = .ok v) := by
  simp [Component.GetInputPort, Component.GetOutputPort, nullEndpointWorld, Port.new,
    Base.new, Except.map]

/-- C3, amended: `GetInputPort(i)` (resp. `GetOutputPort(i)`) returns an absent
value when `i` is not below the component's input (resp. output) port count, in
particular at index 0 of a component with no such port; when `i` is below the
count it returns a Port view over the i-th endpoint if that pointer is non-null
and fails with "Pointer is null" if it is null.  It changes neither the
component nor the world. -/
theorem C3_port_accessors {σ : Type} (c : Component) (i : Nat) (w : World σ) :
    ((w.mem.component c.Ptr).input_num ≤ i → (c.GetInputPort i w).ret = .ok none) ∧
    (i < (w.mem.component c.Ptr).input_num → (w.mem.component c.Ptr).input i ≠ nullptr →
      (c.GetInputPort i w).ret = .ok (some { Ptr := (w.mem.component c.Ptr).input i })) ∧
    (i < (w.mem.component c.Ptr).input_num → (w.mem.component c.Ptr).input i = nullptr →
      (c.GetInputPort i w).ret = .error { what := "Pointer is null" }) ∧
    ((w.mem.component c.Ptr).input_num = 0 → (c.GetInputPort 0 w).ret = .ok none) ∧
    (c.GetInputPort i w).self = c ∧ (c.GetInputPort i w).world = w ∧
    ((w.mem.component c.Ptr).output_num ≤ i → (c.GetOutputPort i w).ret = .ok none) ∧
    (i < (w.mem.component c.Ptr).output_num → (w.mem.component c.Ptr).output i ≠ nullptr →
      (c.GetOutputPort i w).ret = .ok (some { Ptr := (w.mem.component c.Ptr).output i })) ∧
    (i < (w.mem.component c.Ptr).output_num → (w.mem.component c.Ptr).output i = nullptr →
      (c.GetOutputPort i w).ret = .error { what := "Pointer is null" }) ∧
    ((w.mem.component c.Ptr).output_num = 0 → (c.GetOutputPort 0 w).ret = .ok none) ∧
    (c.GetOutputPort i w).self = c ∧ (c.GetOutputPort i w).world = w := by
  refine ⟨?_, ?_, ?_, ?_, ?_, ?_, ?_, ?_, ?_, ?_, ?_, ?_⟩
  · intro h
    simp [Component.GetInputPort, Nat.not_lt.mpr h]
  · intro h hp
    simp [Component.GetInputPort, h, Port.new, Base.new, hp, Except.map]
  · intro h hp
    simp [Component.GetInputPort, h, Port.new, Base.new, hp, Except.map]
  · intro h
    simp [Component.GetInputPort, h]
  · unfold Component.GetInputPort
    split <;> rfl
  · unfold Component.GetInputPort
    split <;> rfl
  · intro h
    simp [Component.GetOutputPort, Nat.not_lt.mpr h]
  · intro h hp
    simp [Component.GetOutputPort, h, Port.new, Base.new, hp, Except.map]
  · intro h hp
    simp [Component.GetOutputPort, h, Port.new, Base.new, hp, Except.map]
  · intro h
    simp [Component.GetOutputPort, h]
  · unfold Component.GetOutputPort
    split <;> rfl
  · unfold Component.GetOutputPort
    split <;> rfl

/-- C3 evaluated on a source-only stage with two output ports at 20 and 21:
`GetInputPort(0)` is absent, `GetOutputPort(1)` is a view over 21, and
`GetOutputPort(2)` is absent. -/
theorem C3_port_accessors_on_source_stage :
    (Component.GetInputPort { Ptr := 3 } 0 sourceStageWorld).ret = .ok none ∧
    (Component.GetOutputPort { Ptr := 3 } 1 sourceStageWorld).ret = .ok (some { Ptr := 21 }) ∧
    (Component.GetOutputPort { Ptr := 3 } 2 sourceStageWorld).ret = .ok none :=
  ⟨(C3_port_accessors { Ptr := 3 } 0 sourceStageWorld).2.2.2.1 rfl,
   (C3_port_accessors { Ptr := 3 } 1 sourceStageWorld).2.2.2.2.2.2.2.1 (by decide) (by decide),
   (C3_port_accessors { Ptr := 3 } 2 sourceStageWorld).2.2.2.2.2.2.1 (by decide)⟩

/-- C10: after `SetBufferCount(n)` the next `GetBufferCount()` returns `n`
reduced modulo `2^32`, hence `n` itself when `n < 2^32`, and `GetBufferSize()`
returns what it returned before; symmetrically for `SetBufferSize(n)`.  Neither
setter throws or issues a native call. -/
theorem C10_buffer_field_roundtrip {σ : Type} (p : Port) (n : Nat) (w : World σ) :
    ((p.SetBufferCount n w).self.GetBufferCount (p.SetBufferCount n w).world).ret
      = .ok (n % 2 ^ 32) ∧
    (n < 2 ^ 32 →
      ((p.SetBufferCount n w).self.GetBufferCount (p.SetBufferCount n w).world).ret = .ok n) ∧
    ((p.SetBufferCount n w).self.GetBufferSize (p.SetBufferCount n w).world).ret
      = (p.GetBufferSize w).ret ∧
    ((p.SetBufferSize n w).self.GetBufferSize (p.SetBufferSize n w).world).ret
      = .ok (n % 2 ^ 32) ∧
    (n < 2 ^ 32 →
      ((p.SetBufferSize n w).self.GetBufferSize (p.SetBufferSize n w).world).ret = .ok n) ∧
    ((p.SetBufferSize n w).self.GetBufferCount (p.SetBufferSize n w).world).ret
      = (p.GetBufferCount w).ret ∧
    (p.SetBufferCount n w).ret = .ok () ∧ (p.SetBufferSize n w).ret = .ok () ∧
    (p.SetBufferCount n w).world.log = w.log ∧ (p.SetBufferSize n w).world.log = w.log := by
  refine ⟨?_, ?_, ?_, ?_, ?_, ?_, rfl, rfl, rfl, rfl⟩
  · simp [Port.SetBufferCount, Port.GetBufferCount, Memory.storePort, to_uint32, UINT32_BITS]
  · intro h
    simp only [Port.SetBufferCount, Port.GetBufferCount, Memory.storePort, to_uint32,
      UINT32_BITS, Function.update_same, Nat.mod_eq_of_lt h]
  · simp [Port.SetBufferCount, Port.GetBufferSize, Memory.storePort]
  · simp [Port.SetBufferSize, Port.GetBufferSize, Memory.storePort, to_uint32, UINT32_BITS]
  · intro h
    simp only [Port.SetBufferSize, Port.GetBufferSize, Memory.storePort, to_uint32,
      UINT32_BITS, Function.update_same, Nat.mod_eq_of_lt h]
  · simp [Port.SetBufferSize, Port.GetBufferCount, Memory.storePort]

/-- C10 evaluated beyond the field width: after `SetBufferCount(2^32 + 5)` on the
port at 7, `GetBufferCount()` returns 5; below it, `SetBufferSize(1024)` reads
back as 1024. -/
theorem C10_buffer_field_roundtrip_at_port_7 :
    ((Port.SetBufferCount { Ptr := 7 } (2 ^ 32 + 5) blankWorld).self.GetBufferCount
      (Port.SetBufferCount { Ptr := 7 } (2 ^ 32 + 5) blankWorld).world).ret = .ok 5 ∧
    ((Port.SetBufferSize { Ptr := 7 } 1024 blankWorld).self.GetBufferSize
      (Port.SetBufferSize { Ptr := 7 } 1024 blankWorld).world).ret = .ok 1024 :=
  ⟨(C10_buffer_field_roundtrip { Ptr := 7 } (2 ^ 32 + 5) blankWorld).1,
   (C10_buffer_field_roundtrip { Ptr := 7 } 1024 blankWorld).2.2.2.2.1 (by decide)⟩

/-- C4, as stated, fails: with an engine that refuses both requests (failure
status, connection pointer left null, null pool returned), `Connect` and
`CreatePool` do not return an absent value: both throw "Pointer is null". -/
theorem C4_refused_creation_raises :
    (invoke refusingEngine (.mmal_connection_create 1 2 3) blankWorld).1.status ≠ MMAL_SUCCESS ∧
    (Connection.Connect refusingEngine { Ptr := 1 } { Ptr := 2 } 3 blankWorld).ret
      = .error { what := "Pointer is null" } ∧
    (Connection.Connect refusingEngine { Ptr := 1 } { Ptr := 2 } 3 blankWorld).ret ≠ .ok none ∧
    (invoke refusingEngine (.mmal_port_pool_create 1 4 1024) blankWorld).1.ptr = nullptr ∧
    (Port.CreatePool refusingEngine { Ptr := 1 } 4 1024 none blankWorld).ret
      = .error { what := "Pointer is null" } ∧
    (Port.CreatePool refusingEngine { Ptr := 1 } 4 1024 none blankWorld).ret ≠ .ok none := by
  simp [Connection.Connect, Port.CreatePool, Connection.new, Pool.new, Base.new,
    Base.GetRawPtr, invoke, refusingEngine, Except.map, nullptr, MMAL_SUCCESS]

/-- C4, amended: when the engine fails to create a connection, leaving the
connection pointer null, `Connect` throws "Pointer is null", and when it fails to
create a pool, returning a null pool, `CreatePool` throws "Pointer is null";
neither operation ever returns an absent value: whenever the engine hands back a
non-null pointer the result is a wrapper of that pointer. -/
theorem C4_creation_failure_raises {σ : Type} (E : Engine σ) (p1 p2 p : Port) (flags : Nat)
    (count size : Nat) (owner : PortRef) (w : World σ) :
    ((invoke E (.mmal_connection_create p1.Ptr p2.Ptr (to_uint32 flags)) w).1.out.getD nullptr = nullptr →
      (Connection.Connect E p1 p2 flags w).ret = .error { what := "Pointer is null" }) ∧
    ((invoke E (.mmal_connection_create p1.Ptr p2.Ptr (to_uint32 flags)) w).1.out.getD nullptr ≠ nullptr →
      (Connection.Connect E p1 p2 flags w).ret = .ok (some
        { Ptr := (invoke E (.mmal_connection_create p1.Ptr p2.Ptr (to_uint32 flags)) w).1.out.getD nullptr })) ∧
    (Connection.Connect E p1 p2 flags w).ret ≠ .ok none ∧
    ((invoke E (.mmal_port_pool_create p.Ptr (to_uint32 count) (to_uint32 size)) w).1.ptr = nullptr →
      (p.CreatePool E count size owner w).ret = .error { what := "Pointer is null" }) ∧
    ((invoke E (.mmal_port_pool_create p.Ptr (to_uint32 count) (to_uint32 size)) w).1.ptr ≠ nullptr →
      (p.CreatePool E count size owner w).ret = .ok (some
        { Ptr := (invoke E (.mmal_port_pool_create p.Ptr (to_uint32 count) (to_uint32 size)) w).1.ptr,
          Owner := owner })) ∧
    (p.CreatePool E count size owner w).ret ≠ .ok none := by
  refine ⟨?_, ?_, ?_, ?_, ?_, ?_⟩
  · intro h
    simp [Connection.Connect, Connection.new, Base.new, Base.GetRawPtr, Except.map, h]
  · intro h
    simp [Connection.Connect, Connection.new, Base.new, Base.GetRawPtr, Except.map, h]
  · by_cases h : (invoke E (.mmal_connection_create p1.Ptr p2.Ptr (to_uint32 flags)) w).1.out.getD nullptr
        = nullptr <;>
      simp [Connection.Connect, Connection.new, Base.new, Base.GetRawPtr, Except.map, h]
  · intro h
    simp [Port.CreatePool, Pool.new, Base.new, Except.map, h]
  · intro h
    simp [Port.CreatePool, Pool.new, Base.new, Except.map, h]
  · by_cases h : (invoke E (.mmal_port_pool_create p.Ptr (to_uint32 count) (to_uint32 size)) w).1.ptr = nullptr <;>
      simp [Port.CreatePool, Pool.new, Base.new, Except.map, h]

/-- C4 evaluated on an engine that grants both requests with the pointer 9:
`Connect` returns a Connection over 9 and `CreatePool` a Pool over 9. -/
theorem C4_creation_on_granting_engine :
    (Connection.Connect grantingEngine { Ptr := 1 } { Ptr := 2 } 3 blankWorld).ret
      = .ok (some { Ptr := 9 }) ∧
    (Port.CreatePool grantingEngine { Ptr := 1 } 4 1024 none blankWorld).ret
      = .ok (some { Ptr := 9, Owner := none }) :=
  ⟨(C4_creation_failure_raises grantingEngine { Ptr := 1 } { Ptr := 2 } { Ptr := 1 } 3 4 1024
      none blankWorld).2.1 (by decide),
   (C4_creation_failure_raises grantingEngine { Ptr := 1 } { Ptr := 2 } { Ptr := 1 } 3 4 1024
      none blankWorld).2.2.2.2.1 (by decide)⟩

/-- C5, as stated, fails: `Connect(p1, p2, f)` with `f = 2^32 + 3` does not
issue the request with flags exactly `f`; the 32-bit `flags` parameter of
`mmal_connection_create` receives 3. -/
theorem C5_wide_flags_are_narrowed :
    (Connection.Connect grantingEngine { Ptr := 1 } { Ptr := 2 } (2 ^ 32 + 3) blankWorld).world.log
      = blankWorld.log ++ [.mmal_connection_create 1 2 3] ∧
    (Connection.Connect grantingEngine { Ptr := 1 } { Ptr := 2 } (2 ^ 32 + 3) blankWorld).world.log
      ≠ blankWorld.log ++ [.mmal_connection_create 1 2 (2 ^ 32 + 3)] := by
  refine ⟨by rfl, ?_⟩
  decide

/-- C5, amended: `Connect(p1, p2)` without a flags argument issues exactly one
native call, `mmal_connection_create` on the raw pointers of `p1` and `p2` in
that order with flags `MMAL_CONNECTION_FLAG_TUNNELLING | MMAL_CONNECTION_FLAG_ALLOCATION_ON_INPUT`;
`Connect(p1, p2, f)` issues the same call with flags `f` reduced modulo `2^32`,
hence exactly `f` whenever `f < 2^32`. -/
theorem C5_Connect_flags {σ : Type} (E : Engine σ) (p1 p2 : Port) (f : Nat) (w : World σ) :
    (Connection.Connect_default E p1 p2 w).world.log
      = w.log ++ [.mmal_connection_create p1.Ptr p2.Ptr
          (MMAL_CONNECTION_FLAG_TUNNELLING ||| MMAL_CONNECTION_FLAG_ALLOCATION_ON_INPUT)] ∧
    (Connection.Connect E p1 p2 f w).world.log
      = w.log ++ [.mmal_connection_create p1.Ptr p2.Ptr (f % 2 ^ 32)] ∧
    (f < 2 ^ 32 → (Connection.Connect E p1 p2 f w).world.log
      = w.log ++ [.mmal_connection_create p1.Ptr p2.Ptr f]) ∧
    Connection.Connect_default E p1 p2 w
      = Connection.Connect E p1 p2
          (MMAL_CONNECTION_FLAG_TUNNELLING ||| MMAL_CONNECTION_FLAG_ALLOCATION_ON_INPUT) w := by
  have hlog : ∀ g, (Connection.Connect E p1 p2 g w).world.log
      = w.log ++ [.mmal_connection_create p1.Ptr p2.Ptr (g % 2 ^ 32)] := by
    intro g
    simp [Connection.Connect, Base.GetRawPtr, invoke, to_uint32, UINT32_BITS]
  refine ⟨?_, hlog f, ?_, rfl⟩
  · have hdefault : (MMAL_CONNECTION_FLAG_TUNNELLING ||| MMAL_CONNECTION_FLAG_ALLOCATION_ON_INPUT)
        % 2 ^ 32
        = MMAL_CONNECTION_FLAG_TUNNELLING ||| MMAL_CONNECTION_FLAG_ALLOCATION_ON_INPUT := by
      decide
    unfold Connection.Connect_default
    rw [hlog, hdefault]
  · intro h
    rw [hlog, Nat.mod_eq_of_lt h]

/-- C5 evaluated: `Connect` of the ports at 1 and 2 with flags 5 requests flags
5, and without flags requests flags 3, the two default bits. -/
theorem C5_Connect_flags_at_ports_1_2 :
    (Connection.Connect grantingEngine { Ptr := 1 } { Ptr := 2 } 5 blankWorld).world.log
      = blankWorld.log ++ [.mmal_connection_create 1 2 5] ∧
    (Connection.Connect_default grantingEngine { Ptr := 1 } { Ptr := 2 } blankWorld).world.log
      = blankWorld.log ++ [.mmal_connection_create 1 2 3] :=
  ⟨(C5_Connect_flags grantingEngine { Ptr := 1 } { Ptr := 2 } 5 blankWorld).2.2.1 (by decide),
   (C5_Connect_flags grantingEngine { Ptr := 1 } { Ptr := 2 } 5 blankWorld).1⟩

/-- C6, as stated, fails: `CreatePool(count, size)` with `count = 2^32 + 4` and
`size = 2^32 + 1024` does not request exactly `(count, size)`; the 32-bit
parameters of `mmal_port_pool_create` receive 4 and 1024. -/
theorem C6_wide_sizes_are_narrowed :
    (Port.CreatePool grantingEngine { Ptr := 7 } (2 ^ 32 + 4) (2 ^ 32 + 1024) none
        blankWorld).world.log
      = blankWorld.log ++ [.mmal_port_pool_create 7 4 1024] ∧
    (Port.CreatePool grantingEngine { Ptr := 7 } (2 ^ 32 + 4) (2 ^ 32 + 1024) none
        blankWorld).world.log
      ≠ blankWorld.log ++ [.mmal_port_pool_create 7 (2 ^ 32 + 4) (2 ^ 32 + 1024)] := by
  refine ⟨by rfl, ?_⟩
  decide

/-- C6, amended: `CreatePool()` issues exactly the pool-creation request of
`CreatePool(count, size)` with `count` and `size` read from the port's
`buffer_num` and `buffer_size` fields at the moment of the call, and has the
same outcome; `CreatePool(count, size)` requests `count` and `size` reduced
modulo `2^32` on the wrapped port whatever the fields hold, hence exactly
`(count, size)` whenever both are below `2^32`, and `CreatePool()` exactly the
two fields whenever they hold 32-bit values. -/
theorem C6_CreatePool_request {σ : Type} (E : Engine σ) (p : Port) (count size : Nat)
    (owner : PortRef) (w : World σ) :
    p.CreatePool_default E owner w
      = p.CreatePool E (w.mem.port p.Ptr).buffer_num (w.mem.port p.Ptr).buffer_size owner w ∧
    (p.CreatePool E count size owner w).world.log
      = w.log ++ [.mmal_port_pool_create p.Ptr (count % 2 ^ 32) (size % 2 ^ 32)] ∧
    (count < 2 ^ 32 → size < 2 ^ 32 → (p.CreatePool E count size owner w).world.log
      = w.log ++ [.mmal_port_pool_create p.Ptr count size]) ∧
    (p.CreatePool_default E owner w).world.log
      = w.log ++ [.mmal_port_pool_create p.Ptr ((w.mem.port p.Ptr).buffer_num % 2 ^ 32)
          ((w.mem.port p.Ptr).buffer_size % 2 ^ 32)] ∧
    ((w.mem.port p.Ptr).buffer_num < 2 ^ 32 → (w.mem.port p.Ptr).buffer_size < 2 ^ 32 →
      (p.CreatePool_default E owner w).world.log
        = w.log ++ [.mmal_port_pool_create p.Ptr (w.mem.port p.Ptr).buffer_num
            (w.mem.port p.Ptr).buffer_size]) := by
  have hlog : ∀ n s, (p.CreatePool E n s owner w).world.log
      = w.log ++ [.mmal_port_pool_create p.Ptr (n % 2 ^ 32) (s % 2 ^ 32)] := by
    intro n s
    simp [Port.CreatePool, invoke, to_uint32, UINT32_BITS]
  refine ⟨rfl, hlog count size, ?_, ?_, ?_⟩
  · intro hc hs
    rw [hlog, Nat.mod_eq_of_lt hc, Nat.mod_eq_of_lt hs]
  · unfold Port.CreatePool_default
    rw [hlog]
  · intro hc hs
    unfold Port.CreatePool_default
    rw [hlog, Nat.mod_eq_of_lt hc, Nat.mod_eq_of_lt hs]

/-- C6 evaluated: on the port at 7, whose fields have been set to 3 buffers of
2048 bytes, `CreatePool()` requests `(3, 2048)`, and `CreatePool(4, 1024)`
requests `(4, 1024)`. -/
theorem C6_CreatePool_request_at_port_7 :
    (Port.CreatePool_default grantingEngine { Ptr := 7 } none
        (Port.SetBufferSize { Ptr := 7 } 2048
          (Port.SetBufferCount { Ptr := 7 } 3 blankWorld).world).world).world.log
      = blankWorld.log ++ [.mmal_port_pool_create 7 3 2048] ∧
    (Port.CreatePool grantingEngine { Ptr := 7 } 4 1024 none blankWorld).world.log
      = blankWorld.log ++ [.mmal_port_pool_create 7 4 1024] :=
  ⟨(C6_CreatePool_request grantingEngine { Ptr := 7 } 4 1024 none
      (Port.SetBufferSize { Ptr := 7 } 2048
        (Port.SetBufferCount { Ptr := 7 } 3 blankWorld).world).world).2.2.2.2
      (by decide) (by decide),
   (C6_CreatePool_request grantingEngine { Ptr := 7 } 4 1024 none blankWorld).2.2.1
      (by decide) (by decide)⟩

/-- C7: constructing a Component by name issues the factory call
`mmal_component_create(name, &Ptr)` and throws "Failed to create component" if
and only if the factory reports a status other than `MMAL_SUCCESS`; when it
reports success, construction succeeds and the Component holds the pointer the
factory stored through `&Ptr`. -/
theorem C7_Component_construction {σ : Type} (E : Engine σ) (name : String) (w : World σ) :
    ((Component.new E name w).ret = .error { what := "Failed to create component" } ↔
      (invoke E (.mmal_component_create name) w).1.status ≠ MMAL_SUCCESS) ∧
    ((invoke E (.mmal_component_create name) w).1.status = MMAL_SUCCESS →
      (Component.new E name w).ret
        = .ok { Ptr := (invoke E (.mmal_component_create name) w).1.out.getD nullptr }) ∧
    (∀ inst, (invoke E (.mmal_component_create name) w).1.status = MMAL_SUCCESS →
      (invoke E (.mmal_component_create name) w).1.out = some inst →
        (Component.new E name w).ret = .ok { Ptr := inst }) ∧
    (Component.new E name w).world.log = w.log ++ [.mmal_component_create name] := by
  refine ⟨?_, ?_, ?_, ?_⟩
  · by_cases h : (invoke E (.mmal_component_create name) w).1.status = MMAL_SUCCESS <;>
      simp [Component.new, h]
  · intro h
    simp [Component.new, h]
  · intro inst h hout
    simp [Component.new, h, hout]
  · by_cases h : (invoke E (.mmal_component_create name) w).1.status = MMAL_SUCCESS <;>
      simp [Component.new, h] <;> simp [invoke]

/-- The object a sequence of toggles leaves is the object it started from, and
the log grows by one forwarded call per toggle. -/
theorem Port.toggles_spec {σ : Type} (E : Engine σ) (p : Port) (ts : List Toggle) (w : World σ) :
    (Port.toggles E p ts w).1 = p ∧
    (Port.toggles E p ts w).2.log = w.log ++ ts.map (Toggle.call p.Ptr) := by
  induction ts generalizing w with
  | nil => simp [Port.toggles]
  | cons t ts ih =>
    have hself : (p.toggle E t w).self = p := by
      cases t <;> rfl
    have hlog : (p.toggle E t w).world.log = w.log ++ [Toggle.call p.Ptr t] := by
      cases t <;> rfl
    simp only [Port.toggles, hself]
    refine ⟨(ih _).1, ?_⟩
    rw [(ih _).2, hlog]
    simp

/-- C8 (what the code does on destruction): destroying a Port issues no native
call; destroying a Pool returned by `CreatePool` issues exactly one
`mmal_port_pool_destroy`, on that pool and on the owner the `Pool` constructor
received, which is the operand left blank in `CreatePool` and not the port
`CreatePool` was called on; destroying a constructed Connection issues exactly
one `mmal_connection_destroy` on its tunnel; destroying a Component holding a
stage instance issues exactly one `mmal_component_destroy` on it (and none when
its pointer is null). -/
theorem C8_release_calls {σ : Type} (E : Engine σ) (P : Port) (count size : Nat)
    (owner : PortRef) (w0 w : World σ) (pool : Pool) (raw : RawPtr) (conn : Connection)
    (comp : Component)
    (hpool : (P.CreatePool E count size owner w0).ret = .ok (some pool))
    (hconn : Connection.new raw = .ok conn)
    (hcomp : comp.Ptr ≠ nullptr) :
    P.destructor w = w ∧
    pool.Owner = owner ∧
    pool.Ptr = (invoke E (.mmal_port_pool_create P.Ptr (to_uint32 count) (to_uint32 size)) w0).1.ptr ∧
    (pool.destructor E w).log = w.log ++ [.mmal_port_pool_destroy owner pool.Ptr] ∧
    (conn.destructor E w).log = w.log ++ [.mmal_connection_destroy raw] ∧
    (comp.destructor E w).log = w.log ++ [.mmal_component_destroy comp.Ptr] ∧
    Component.destructor E { Ptr := nullptr } w = w := by
  have hraw : raw ≠ nullptr := by
    intro h
    simp [Connection.new, Base.new, h] at hconn
  have hc : conn = { Ptr := raw } := by
    simp [Connection.new, Base.new, hraw] at hconn
    exact hconn.symm
  have hp : pool = { Ptr := (invoke E (.mmal_port_pool_create P.Ptr (to_uint32 count) (to_uint32 size)) w0).1.ptr,
                     Owner := owner } := by
    by_cases h : (invoke E (.mmal_port_pool_create P.Ptr (to_uint32 count) (to_uint32 size)) w0).1.ptr = nullptr
    · simp [Port.CreatePool, Pool.new, Base.new, Except.map, h] at hpool
    · simp [Port.CreatePool, Pool.new, Base.new, Except.map, h] at hpool
      exact hpool.symm
  subst hc hp
  refine ⟨rfl, rfl, rfl, ?_, ?_, ?_, ?_⟩
  · simp [Pool.destructor, Base.destructor, invoke]
  · simp [Connection.destructor, Base.destructor, invoke, hraw]
  · simp [Component.destructor, invoke, hcomp]
  · simp [Component.destructor]

/-- C8 evaluated: port 7 asks a granting engine for a pool of 4 buffers of 1024
bytes, nothing standing in the blank owner operand (a null `Port*`); the pool 9
it gets is released by a call that names no owner, not port 7. -/
theorem C8_release_calls_at_port_7 :
    (Port.CreatePool grantingEngine { Ptr := 7 } 4 1024 none blankWorld).ret
      = .ok (some { Ptr := 9, Owner := none }) ∧
    Connection.new 9 = .ok { Ptr := 9 } ∧
    (9 : RawPtr) ≠ nullptr ∧
    (Port.destructor { Ptr := 7 } blankWorld = blankWorld ∧
     (({ Ptr := 9, Owner := none } : Pool).Owner = none) ∧
     (({ Ptr := 9, Owner := none } : Pool).Ptr
        = (invoke grantingEngine (.mmal_port_pool_create 7 4 1024) blankWorld).1.ptr) ∧
     (Pool.destructor grantingEngine { Ptr := 9, Owner := none } blankWorld).log
        = blankWorld.log ++ [.mmal_port_pool_destroy none 9] ∧
     (Connection.destructor grantingEngine { Ptr := 9 } blankWorld).log
        = blankWorld.log ++ [.mmal_connection_destroy 9] ∧
     (Component.destructor grantingEngine { Ptr := 9 } blankWorld).log
        = blankWorld.log ++ [.mmal_component_destroy 9] ∧
     Component.destructor grantingEngine { Ptr := nullptr } blankWorld = blankWorld) ∧
    (Pool.destructor grantingEngine { Ptr := 9, Owner := none } blankWorld).log
      ≠ blankWorld.log ++ [.mmal_port_pool_destroy (some { Ptr := 7 }) 9] :=
  ⟨by rfl, by rfl, by decide,
    C8_release_calls grantingEngine { Ptr := 7 } 4 1024 none blankWorld blankWorld
      { Ptr := 9, Owner := none } 9 { Ptr := 9 } { Ptr := 9 } (by rfl) (by rfl) (by decide),
    by decide⟩

/-- C9: each boolean-returning operation of Port (`CommitFormatChanges`, the
three `SetParameter` shapes, `Enable`, `Disable`), Connection (`Enable`,
`Disable`) and Component (`Enable`, `Disable`) issues exactly one native call,
on the wrapped pointer, returns normally with `true` exactly when that call
reports `MMAL_SUCCESS`, and leaves the wrapper unchanged, in every world (so
also when repeated).  After any sequence of `Enable`/`Disable` calls on a Port
the wrapper is the one it started as, one call was forwarded per toggle, and
every operation applied to it is the operation applied to the original. -/
theorem C9_boolean_operations_forward {σ : Type} (E : Engine σ) (p : Port) (c : Connection)
    (k : Component) (rec : ParameterRecord) (id value : Nat) (flag : Bool) (callback : RawPtr)
    (ts : List Toggle) (w : World σ) :
    ForwardsOnce E (.mmal_port_format_commit p.Ptr) p w (p.CommitFormatChanges E w) ∧
    ForwardsOnce E (.mmal_port_parameter_set p.Ptr rec) p w (p.SetParameter E rec w) ∧
    ForwardsOnce E (.mmal_port_parameter_set_uint32 p.Ptr (id % 2 ^ 32) (value % 2 ^ 32)) p w
      (p.SetParameter_uint32 E id value w) ∧
    ForwardsOnce E (.mmal_port_parameter_set_boolean p.Ptr (id % 2 ^ 32) (if flag then 1 else 0))
      p w (p.SetParameter_bool E id flag w) ∧
    ForwardsOnce E (.mmal_port_enable p.Ptr callback) p w (p.Enable E callback w) ∧
    ForwardsOnce E (.mmal_port_disable p.Ptr) p w (p.Disable E w) ∧
    ForwardsOnce E (.mmal_connection_enable c.Ptr) c w (c.Enable E w) ∧
    ForwardsOnce E (.mmal_connection_disable c.Ptr) c w (c.Disable E w) ∧
    ForwardsOnce E (.mmal_component_enable k.Ptr) k w (k.Enable E w) ∧
    ForwardsOnce E (.mmal_component_disable k.Ptr) k w (k.Disable E w) ∧
    (Port.toggles E p ts w).1 = p ∧
    (Port.toggles E p ts w).2.log = w.log ++ ts.map (Toggle.call p.Ptr) ∧
    (∀ (β : Type) (op : Port → World σ → β) (w1 : World σ),
      op (Port.toggles E p ts w).1 w1 = op p w1) := by
  have key : ∀ (Self : Type) (self : Self) (call : EngineCall),
      ForwardsOnce E call self w
        { ret := .ok (decide ((invoke E call w).1.status = MMAL_SUCCESS)),
          self := self, world := (invoke E call w).2 } := by
    intro Self self call
    refine ⟨rfl, rfl, ⟨_, rfl, ?_⟩, rfl⟩
    simp
  refine ⟨key _ _ _, key _ _ _, key _ _ _, key _ _ _, key _ _ _, key _ _ _, key _ _ _,
    key _ _ _, key _ _ _, key _ _ _, (Port.toggles_spec E p ts w).1,
    (Port.toggles_spec E p ts w).2, ?_⟩
  intro β op w1
  rw [(Port.toggles_spec E p ts w).1]

end MMAL
